import Mathlib

/-!
Verification of the image-resizing utilities in
`src/thelittlehackers/utils/image_utils.py`.

The module under scrutiny is a small, stateless collection of helpers built
on Pillow (PIL): an alpha flattener (`convert_image_to_rgb_mode`), a
resize/crop planner (`resize_image`) and a variant generator
(`generate_image_variants`).  The Python code computes aspect ratios with
float division; this development models those ratios as exact rational
numbers (the decision structure and the truncations are identical, and every
concrete input used below is exactly representable as an IEEE double, so the
rational model agrees with the float execution on them).  Python `int(x)`
truncates toward zero and is modelled by `truncQ`; Python `round(x)` rounds
half to even and is modelled by `pyRound`.
-/

namespace ImageUtils

/-- Embedding of the `ImageCropAlignment` enumeration (source lines 33-46).
The Python class is a `StrEnum` whose member names are `CENTER`,
`LEFT_OR_TOP`, `RIGHT_OR_BOTTOM` (with the lowercase member names as string
values). -/
inductive ImageCropAlignment
  | CENTER
  | LEFT_OR_TOP
  | RIGHT_OR_BOTTOM
  deriving DecidableEq, Repr

/-- Embedding of the `ImageCropShape` enumeration (source lines 49-57). -/
inductive ImageCropShape
  | CIRCLE
  | RECTANGLE
  deriving DecidableEq, Repr

/-- Embedding of the `ImageFilter` enumeration (source lines 60-74). -/
inductive ImageFilter
  | ANTI_ALIAS
  | BICUBIC
  | BILINEAR
  | NEAREST_NEIGHBOR
  deriving DecidableEq, Repr

/-- Embedding of the `ImageVariant` enumeration (source lines 77-91). -/
inductive ImageVariant
  | LARGE
  | MEDIUM
  | SMALL
  | THUMBNAIL
  deriving DecidableEq, Repr

/-- Embedding of the `ImageVariantSize` named tuple (source lines 95-100):
a variant label paired with a target `(width, height)`. -/
structure ImageVariantSize where
  variant : ImageVariant
  size : ℤ × ℤ
  deriving DecidableEq, Repr

/-- The PIL resampling kernels that `PIL_FILTER_MAPPING` maps to. -/
inductive PILResampling
  | NEAREST
  | BILINEAR
  | BICUBIC
  | LANCZOS
  deriving DecidableEq, Repr

/-- Embedding of the `PIL_FILTER_MAPPING` table (source lines 103-108). -/
def PIL_FILTER_MAPPING : ImageFilter → PILResampling
  | ImageFilter.NEAREST_NEIGHBOR => PILResampling.NEAREST
  | ImageFilter.BILINEAR => PILResampling.BILINEAR
  | ImageFilter.BICUBIC => PILResampling.BICUBIC
  | ImageFilter.ANTI_ALIAS => PILResampling.LANCZOS

/-- A PIL image as far as this module observes it: a width, a height and a
pixel mode string (`image.size` and `image.mode` in the source).  Pixel
contents are never inspected by the module, so they are not modelled. -/
structure PILImage where
  width : ℤ
  height : ℤ
  mode : String
  deriving DecidableEq, Repr

/-- Whether a PIL pixel mode carries an alpha component.  Per the Pillow
documentation the modes with an alpha band are `RGBA`, premultiplied `RGBa`,
`LA`, premultiplied `La`, and `PA` (palette with alpha). -/
def modeHasAlpha (mode : String) : Bool :=
  mode == "RGBA" || mode == "RGBa" || mode == "LA" || mode == "La" || mode == "PA"

/-- Embedding of `convert_image_to_rgb_mode` (source lines 111-143).  If the
mode is neither `RGBA` nor `LA` the input is returned unchanged; otherwise a
new image of mode `image.mode[:-1]` and the same size is allocated, filled
with `fill_color`, and the original is composited onto it through its alpha
band (the composite only affects pixel data, which is not modelled). -/
def convert_image_to_rgb_mode (image : PILImage)
    (fill_color : ℤ × ℤ × ℤ := (255, 255, 255)) : PILImage :=
  if image.mode = "RGBA" ∨ image.mode = "LA" then
    PILImage.mk image.width image.height (image.mode.dropRight 1)
  else
    image

/-- Python `int(x)`: truncation toward zero. -/
def truncQ (q : ℚ) : ℤ :=
  if 0 ≤ q then ⌊q⌋ else ⌈q⌉

/-- Python `round(x)` restricted to rationals: round half to even.  Used only
to state what the specification text asserts about the crop width; the source
code itself uses `int` (see `truncQ`). -/
def pyRound (q : ℚ) : ℤ :=
  if q - ⌊q⌋ < 1 / 2 then ⌊q⌋
  else if 1 / 2 < q - ⌊q⌋ then ⌊q⌋ + 1
  else if ⌊q⌋ % 2 = 0 then ⌊q⌋ else ⌊q⌋ + 1

/-- The crop box handed to `PIL.Image.crop`: `(left, top, right, bottom)` in
source-image coordinates.  The Python code builds it from ints and floats
(the centred offsets are float halves), hence rational fields. -/
structure CropBox where
  left : ℚ
  top : ℚ
  right : ℚ
  bottom : ℚ
  deriving DecidableEq, Repr

/-- The data-model invariant the specification asserts for a crop rectangle
over a source of the given dimensions. -/
def CropBox.within (b : CropBox) (source_width source_height : ℤ) : Prop :=
  0 ≤ b.left ∧ b.left < b.right ∧ b.right ≤ (source_width : ℚ) ∧
    0 ≤ b.top ∧ b.top < b.bottom ∧ b.bottom ≤ (source_height : ℚ)

/-- The three-way offset choice that `resize_image` repeats in both cropping
sub-branches (source lines 257-263 over widths and 269-275 over heights):
0 for `LEFT_OR_TOP`, `total - destination` for `RIGHT_OR_BOTTOM`, and
`(total - destination) / 2` for `CENTER`. -/
def cropOffset (crop_alignment : ImageCropAlignment) (total destination : ℚ) : ℚ :=
  match crop_alignment with
  | ImageCropAlignment.LEFT_OR_TOP => 0
  | ImageCropAlignment.RIGHT_OR_BOTTOM => total - destination
  | ImageCropAlignment.CENTER => (total - destination) / 2

/-- The crop box computed by `resize_image` (source lines 253-293) given the
source dimensions and the effective canvas aspect ratio.  `require_cropping`
selects between the alignment-honouring branch (lines 253-277) and the
centre-only fit branch (lines 279-293). -/
def resize_box (source_width source_height : ℤ) (canvas_aspect : ℚ)
    (crop_alignment : ImageCropAlignment) (require_cropping : Bool) : CropBox :=
  let source_aspect : ℚ := (source_width : ℚ) / (source_height : ℚ)
  if require_cropping then
    if source_aspect > canvas_aspect then
      let destination_width : ℚ := (truncQ ((source_height : ℚ) * canvas_aspect) : ℤ)
      let offset : ℚ := cropOffset crop_alignment (source_width : ℚ) destination_width
      CropBox.mk offset 0 (offset + destination_width) (source_height : ℚ)
    else
      let destination_height : ℚ := (truncQ ((source_width : ℚ) / canvas_aspect) : ℤ)
      let offset : ℚ := cropOffset crop_alignment (source_height : ℚ) destination_height
      CropBox.mk 0 offset (source_width : ℚ) (destination_height + offset)
  else
    if canvas_aspect > source_aspect then
      let destination_width : ℚ := (truncQ (canvas_aspect * (source_height : ℚ)) : ℤ)
      let offset : ℚ := ((source_width : ℚ) - destination_width) / 2
      CropBox.mk offset 0 ((source_width : ℚ) - offset) (source_height : ℚ)
    else
      let destination_height : ℚ := (truncQ ((source_width : ℚ) / canvas_aspect) : ℤ)
      let offset : ℚ := ((source_height : ℚ) - destination_height) / 2
      CropBox.mk 0 offset (source_width : ℚ) ((source_height : ℚ) - offset)

/-- The orientation-matching step of `resize_image` (source lines 245-251):
when requested and one of the two aspect ratios is above 1 while the other is
below 1, the canvas width and height are swapped. -/
def effective_canvas (source_aspect : ℚ) (canvas_width canvas_height : ℤ)
    (require_match_orientation : Bool) : ℤ × ℤ :=
  if require_match_orientation = true ∧
      (source_aspect > 1 ∧ 1 > (canvas_width : ℚ) / (canvas_height : ℚ) ∨
        source_aspect < 1 ∧ 1 < (canvas_width : ℚ) / (canvas_height : ℚ)) then
    (canvas_height, canvas_width)
  else
    (canvas_width, canvas_height)

/-- Everything `resize_image` computes before the final library calls: the
effective canvas dimensions (after the optional orientation swap) and the
crop box.  `crop_shape` is accepted but never read, and `image_filter` only
selects the resampling kernel, which does not influence the geometry. -/
structure ResizePlan where
  canvas_width : ℤ
  canvas_height : ℤ
  box : CropBox
  deriving DecidableEq, Repr

/-- The geometric plan of `resize_image` (source lines 199-293): aspect
ratios, optional orientation swap, then the crop box. -/
def resize_image_plan (source_width source_height : ℤ) (canvas_size : ℤ × ℤ)
    (crop_alignment : ImageCropAlignment) (crop_shape : ImageCropShape)
    (image_filter : ImageFilter)
    (require_cropping require_match_orientation : Bool) : ResizePlan :=
  let ec := effective_canvas ((source_width : ℚ) / (source_height : ℚ))
    canvas_size.1 canvas_size.2 require_match_orientation
  ResizePlan.mk ec.1 ec.2
    (resize_box source_width source_height ((ec.1 : ℚ) / (ec.2 : ℚ))
      crop_alignment require_cropping)

/-- Embedding of `resize_image` (source lines 199-301): the source is cropped
to the planned box and resampled to exactly the effective canvas dimensions
(source lines 295-299).  Cropping and resampling both preserve the pixel
mode. -/
def resize_image (image : PILImage) (canvas_size : ℤ × ℤ)
    (crop_alignment : ImageCropAlignment)
    (crop_shape : ImageCropShape := ImageCropShape.RECTANGLE)
    (image_filter : ImageFilter := ImageFilter.NEAREST_NEIGHBOR)
    (require_cropping : Bool := false)
    (require_match_orientation : Bool := false) : PILImage :=
  let plan := resize_image_plan image.width image.height canvas_size
    crop_alignment crop_shape image_filter require_cropping require_match_orientation
  PILImage.mk plan.canvas_width plan.canvas_height image.mode

/-- Embedding of `generate_image_variants` (source lines 146-196): one
element per entry of `variant_sizes`, in order, pairing the entry's variant
label with `resize_image` applied to the entry's size; `crop_shape` is left
at its (well-formed) default `RECTANGLE`. -/
def generate_image_variants (image : PILImage)
    (variant_sizes : List ImageVariantSize)
    (crop_alignment : ImageCropAlignment)
    (image_filter : ImageFilter := ImageFilter.NEAREST_NEIGHBOR)
    (require_cropping : Bool := false)
    (require_match_orientation : Bool := false) :
    List (ImageVariant × PILImage) :=
  variant_sizes.map fun variant_size =>
    (variant_size.variant,
      resize_image image variant_size.size crop_alignment ImageCropShape.RECTANGLE
        image_filter require_cropping require_match_orientation)

/-- What Python attribute lookup on the `ImageCropAlignment` class can
yield: an enumeration member, or an attribute inherited from the `str` base
class (a `StrEnum` subclasses `str`, so e.g. `ImageCropAlignment.center` is
the built-in `str.center` method, not a member). -/
inductive ImageCropAlignmentAttr
  | member (a : ImageCropAlignment)
  | strMethod (attr_name : String)
  deriving DecidableEq, Repr

/-- A representative subset of the attributes of the built-in `str` class
(only `center` matters below; the rest witness that the fallback is the
ordinary method table of `str`). -/
def str_attribute_names : List String :=
  ["capitalize", "casefold", "center", "count", "encode", "endswith",
   "find", "format", "index", "join", "lower", "title", "upper", "zfill"]

/-- Python attribute lookup on the `ImageCropAlignment` class: the member
map holds the member NAMES (`CENTER`, `LEFT_OR_TOP`, `RIGHT_OR_BOTTOM`);
any other name falls through to the `str` base class.  `none` models an
`AttributeError`. -/
def imageCropAlignmentClassAttr (attr_name : String) :
    Option ImageCropAlignmentAttr :=
  if attr_name = "CENTER" then
    some (ImageCropAlignmentAttr.member ImageCropAlignment.CENTER)
  else if attr_name = "LEFT_OR_TOP" then
    some (ImageCropAlignmentAttr.member ImageCropAlignment.LEFT_OR_TOP)
  else if attr_name = "RIGHT_OR_BOTTOM" then
    some (ImageCropAlignmentAttr.member ImageCropAlignment.RIGHT_OR_BOTTOM)
  else if attr_name ∈ str_attribute_names then
    some (ImageCropAlignmentAttr.strMethod attr_name)
  else
    none

/-- The declared default of the `crop_alignment` parameter of `resize_image`
(source line 202) is the expression `ImageCropAlignment.center` — note the
lowercase attribute — evaluated once when the module is imported. -/
def resize_image_default_crop_alignment : Option ImageCropAlignmentAttr :=
  imageCropAlignmentClassAttr "center"

/-- `resize_image` as invoked with an arbitrary class-attribute value for
`crop_alignment`.  When the value is not an enumeration member and
`require_cropping` is true, no `case` of the `match` statement (source lines
257-263 / 269-275) applies, `offset` is never bound, and building `box`
raises `UnboundLocalError` — modelled as `none`.  When `require_cropping` is
false the alignment is never read (the fit branch, lines 279-293, ignores
it), so the call succeeds; the member passed to the core function is then
irrelevant and `CENTER` is used as the placeholder. -/
def resize_image_with_attr (image : PILImage) (canvas_size : ℤ × ℤ)
    (crop_alignment : ImageCropAlignmentAttr) (crop_shape : ImageCropShape)
    (image_filter : ImageFilter)
    (require_cropping require_match_orientation : Bool) : Option PILImage :=
  match crop_alignment with
  | ImageCropAlignmentAttr.member a =>
      some (resize_image image canvas_size a crop_shape image_filter
        require_cropping require_match_orientation)
  | ImageCropAlignmentAttr.strMethod _ =>
      if require_cropping then
        none
      else
        some (resize_image image canvas_size ImageCropAlignment.CENTER crop_shape
          image_filter require_cropping require_match_orientation)

/-- Claim C1.  The declared default of the `crop_alignment` parameter of
`resize_image` is the expression `ImageCropAlignment.center`, which resolves
not to the `CENTER` member (whose name is uppercase) but to the `center`
method inherited from the `str` base class of the `StrEnum`.  Consequently a
call that omits `crop_alignment` does NOT behave like a call with `CENTER`:
with `require_cropping` true no `case` of the alignment `match` applies and
the call fails (modelled as `none`), while the explicit `CENTER` call
succeeds. -/
theorem resize_image_default_crop_alignment_is_str_method :
    resize_image_default_crop_alignment =
      some (ImageCropAlignmentAttr.strMethod "center") ∧
    imageCropAlignmentClassAttr "CENTER" =
      some (ImageCropAlignmentAttr.member ImageCropAlignment.CENTER) ∧
    resize_image_with_attr (PILImage.mk 400 200 "RGB") (100, 100)
        (ImageCropAlignmentAttr.strMethod "center") ImageCropShape.RECTANGLE
        ImageFilter.NEAREST_NEIGHBOR true false = none ∧
    resize_image_with_attr (PILImage.mk 400 200 "RGB") (100, 100)
        (ImageCropAlignmentAttr.member ImageCropAlignment.CENTER)
        ImageCropShape.RECTANGLE ImageFilter.NEAREST_NEIGHBOR true false =
      some (PILImage.mk 100 100 "RGB") := by
  refine ⟨by decide, by decide, rfl, by decide⟩

/-- Claim C4.  `convert_image_to_rgb_mode` does not guarantee an alpha-free
result for every input: an image in the `PA` mode (palette with alpha) is
neither `RGBA` nor `LA`, so it is returned unchanged, alpha channel
included. -/
theorem convert_image_to_rgb_mode_keeps_pa_alpha :
    convert_image_to_rgb_mode (PILImage.mk 8 8 "PA") (255, 255, 255) =
      PILImage.mk 8 8 "PA" ∧
    modeHasAlpha
      ((convert_image_to_rgb_mode (PILImage.mk 8 8 "PA") (255, 255, 255)).mode) =
      true := by
  refine ⟨by decide, by decide⟩

/-- Claim C8.  An image whose pixel mode carries no alpha channel is returned
by `convert_image_to_rgb_mode` exactly as given, for every fill color: the
function returns its argument itself in this case. -/
theorem convert_image_to_rgb_mode_identity_on_opaque (image : PILImage)
    (fill_color : ℤ × ℤ × ℤ) (h : modeHasAlpha image.mode = false) :
    convert_image_to_rgb_mode image fill_color = image := by
  have h' : ¬(image.mode = "RGBA" ∨ image.mode = "LA") := by
    simp only [modeHasAlpha, Bool.or_eq_false_iff, beq_eq_false_iff_ne, ne_eq] at h
    rintro (h1 | h2)
    · exact h.1.1.1.1 h1
    · exact h.1.1.2 h2
  unfold convert_image_to_rgb_mode
  rw [if_neg h']

/-- Witness for claim C8 at a concrete opaque image. -/
theorem convert_image_to_rgb_mode_identity_on_opaque_witness :
    convert_image_to_rgb_mode (PILImage.mk 3 4 "RGB") (0, 0, 0) =
      PILImage.mk 3 4 "RGB" :=
  convert_image_to_rgb_mode_identity_on_opaque (PILImage.mk 3 4 "RGB") (0, 0, 0)
    (by decide)

/-- Claim C5.  With `require_cropping` true the image returned by
`resize_image` has exactly the dimensions of the requested canvas, taken
after the orientation swap when `require_match_orientation` applies. -/
theorem resize_image_dimensions_match_canvas (image : PILImage) (cw ch : ℤ)
    (align : ImageCropAlignment) (shape : ImageCropShape) (filt : ImageFilter)
    (rmo : Bool) (ecw ech : ℤ)
    (hsw : 0 < image.width) (hsh : 0 < image.height)
    (hcw : 0 < cw) (hch : 0 < ch)
    (hec : effective_canvas ((image.width : ℚ) / (image.height : ℚ)) cw ch rmo =
      (ecw, ech)) :
    (resize_image image (cw, ch) align shape filt true rmo).width = ecw ∧
    (resize_image image (cw, ch) align shape filt true rmo).height = ech := by
  unfold resize_image resize_image_plan
  rw [hec]
  exact ⟨rfl, rfl⟩

/-- Witness for claim C5: a 400 by 200 source cropped into a 100 by 100
canvas comes back exactly 100 by 100. -/
theorem resize_image_dimensions_match_canvas_witness :
    (resize_image (PILImage.mk 400 200 "RGB") (100, 100)
        ImageCropAlignment.CENTER ImageCropShape.RECTANGLE
        ImageFilter.NEAREST_NEIGHBOR true false).width = 100 ∧
    (resize_image (PILImage.mk 400 200 "RGB") (100, 100)
        ImageCropAlignment.CENTER ImageCropShape.RECTANGLE
        ImageFilter.NEAREST_NEIGHBOR true false).height = 100 :=
  resize_image_dimensions_match_canvas (PILImage.mk 400 200 "RGB") 100 100
    ImageCropAlignment.CENTER ImageCropShape.RECTANGLE
    ImageFilter.NEAREST_NEIGHBOR false 100 100
    (by decide) (by decide) (by decide) (by decide) (by decide)

/-- Claim C9.  `generate_image_variants` yields exactly one element per
entry of `variant_sizes`, in input order; the element at each index pairs
that entry's variant label with `resize_image` applied to that entry's
target size and the shared configuration. -/
theorem generate_image_variants_elements (image : PILImage)
    (variant_sizes : List ImageVariantSize) (align : ImageCropAlignment)
    (filt : ImageFilter) (rc rmo : Bool) :
    (generate_image_variants image variant_sizes align filt rc rmo).length =
      variant_sizes.length ∧
    ∀ i : ℕ,
      (generate_image_variants image variant_sizes align filt rc rmo)[i]? =
        (variant_sizes[i]?).map fun vs =>
          (vs.variant,
            resize_image image vs.size align ImageCropShape.RECTANGLE filt
              rc rmo) := by
  refine ⟨?_, ?_⟩
  · unfold generate_image_variants
    exact List.length_map _ _
  · intro i
    unfold generate_image_variants
    exact List.getElem?_map _ _ _

/-- Claim C10.  The result of `resize_image` does not depend on the
`crop_shape` argument: the body never reads it, so the circle and rectangle
calls return the same image. -/
theorem resize_image_ignores_crop_shape (image : PILImage)
    (canvas_size : ℤ × ℤ) (align : ImageCropAlignment) (filt : ImageFilter)
    (rc rmo : Bool) :
    resize_image image canvas_size align ImageCropShape.CIRCLE filt rc rmo =
      resize_image image canvas_size align ImageCropShape.RECTANGLE filt
        rc rmo := rfl

/-- Helper: when the canvas aspect ratio handed to `resize_box` equals the
source aspect ratio, every branch computes the full source frame. -/
theorem resize_box_self_aspect (sw sh : ℤ) (ca : ℚ) (align : ImageCropAlignment)
    (rc : Bool) (hsw : 0 < sw) (hsh : 0 < sh)
    (hca : ca = (sw : ℚ) / (sh : ℚ)) :
    resize_box sw sh ca align rc = CropBox.mk 0 0 (sw : ℚ) (sh : ℚ) := by
  subst hca
  have hsw' : ((sw : ℚ)) ≠ 0 := by exact_mod_cast hsw.ne'
  have htr : ((truncQ ((sw : ℚ) / ((sw : ℚ) / (sh : ℚ))) : ℤ) : ℚ) = (sh : ℚ) := by
    rw [div_div_eq_mul_div, mul_comm, mul_div_assoc, div_self hsw', mul_one]
    unfold truncQ
    rw [if_pos (by positivity), Int.floor_intCast]
  simp only [resize_box]
  rcases rc with _ | _
  · rw [if_neg Bool.false_ne_true, if_neg (lt_irrefl _), htr]
    norm_num
  · rw [if_pos rfl, if_neg (lt_irrefl _), htr]
    cases align <;> simp [cropOffset]

/-- Claim C6.  When `require_match_orientation` is true and exactly one of
the two aspect ratios exceeds 1 while the other is below 1, `resize_image`
plans with the canvas width and height swapped — identically to a plain call
on the swapped canvas — and in the 200 by 400 portrait source versus 400 by
200 landscape canvas scenario the effective canvas becomes 200 by 400, the
crop box is the full source frame and the output is a plain 200 by 400
resample. -/
theorem resize_image_orientation_swap :
    (∀ (sw sh cw ch : ℤ) (align : ImageCropAlignment) (shape : ImageCropShape)
        (filt : ImageFilter) (rc : Bool),
        ((sw : ℚ) / (sh : ℚ) > 1 ∧ 1 > (cw : ℚ) / (ch : ℚ) ∨
          (sw : ℚ) / (sh : ℚ) < 1 ∧ 1 < (cw : ℚ) / (ch : ℚ)) →
        resize_image_plan sw sh (cw, ch) align shape filt rc true =
          resize_image_plan sw sh (ch, cw) align shape filt rc false) ∧
    resize_image_plan 200 400 (400, 200) ImageCropAlignment.CENTER
        ImageCropShape.RECTANGLE ImageFilter.NEAREST_NEIGHBOR false true =
      ResizePlan.mk 200 400 (CropBox.mk 0 0 200 400) ∧
    resize_image (PILImage.mk 200 400 "RGB") (400, 200)
        ImageCropAlignment.CENTER ImageCropShape.RECTANGLE
        ImageFilter.NEAREST_NEIGHBOR false true = PILImage.mk 200 400 "RGB" := by
  refine ⟨?_,
    by norm_num [resize_image_plan, effective_canvas, resize_box, truncQ, cropOffset],
    by norm_num [resize_image, resize_image_plan, effective_canvas]⟩
  intro sw sh cw ch align shape filt rc h
  have e1 : effective_canvas ((sw : ℚ) / (sh : ℚ)) cw ch true = (ch, cw) := by
    unfold effective_canvas
    rw [if_pos ⟨rfl, h⟩]
  have e2 : effective_canvas ((sw : ℚ) / (sh : ℚ)) ch cw false = (ch, cw) := by
    unfold effective_canvas
    rw [if_neg]
    rintro ⟨hfalse, -⟩
    exact Bool.false_ne_true hfalse
  unfold resize_image_plan
  rw [e1, e2]

/-- Witness for claim C6, instantiating the general swap equation at the
portrait-source, landscape-canvas scenario. -/
theorem resize_image_orientation_swap_witness :
    resize_image_plan 200 400 (400, 200) ImageCropAlignment.LEFT_OR_TOP
        ImageCropShape.RECTANGLE ImageFilter.BILINEAR true true =
      resize_image_plan 200 400 (200, 400) ImageCropAlignment.LEFT_OR_TOP
        ImageCropShape.RECTANGLE ImageFilter.BILINEAR true false :=
  resize_image_orientation_swap.1 200 400 400 200 ImageCropAlignment.LEFT_OR_TOP
    ImageCropShape.RECTANGLE ImageFilter.BILINEAR true (by norm_num)

/-- Claim C7.  When the source aspect ratio equals the effective canvas
aspect ratio (after any orientation swap), the planned crop box is the full
source frame, whatever `require_cropping` and the alignment are: the
operation is a pure resample. -/
theorem resize_image_equal_aspect_full_frame (sw sh cw ch : ℤ)
    (align : ImageCropAlignment) (shape : ImageCropShape) (filt : ImageFilter)
    (rc rmo : Bool) (ecw ech : ℤ)
    (hsw : 0 < sw) (hsh : 0 < sh)
    (hec : effective_canvas ((sw : ℚ) / (sh : ℚ)) cw ch rmo = (ecw, ech))
    (ha : (sw : ℚ) / (sh : ℚ) = (ecw : ℚ) / (ech : ℚ)) :
    (resize_image_plan sw sh (cw, ch) align shape filt rc rmo).box =
      CropBox.mk 0 0 (sw : ℚ) (sh : ℚ) := by
  have hplan : resize_image_plan sw sh (cw, ch) align shape filt rc rmo =
      ResizePlan.mk ecw ech (resize_box sw sh ((ecw : ℚ) / (ech : ℚ)) align rc) := by
    unfold resize_image_plan
    rw [hec]
  rw [hplan]
  exact resize_box_self_aspect sw sh ((ecw : ℚ) / (ech : ℚ)) align rc hsw hsh ha.symm

/-- Witness for claim C7: a square source into a square canvas, with
cropping required, is planned as the identity crop. -/
theorem resize_image_equal_aspect_full_frame_witness :
    (resize_image_plan 2 2 (3, 3) ImageCropAlignment.CENTER
        ImageCropShape.RECTANGLE ImageFilter.NEAREST_NEIGHBOR true
        false).box = CropBox.mk 0 0 2 2 :=
  resize_image_equal_aspect_full_frame 2 2 3 3 ImageCropAlignment.CENTER
    ImageCropShape.RECTANGLE ImageFilter.NEAREST_NEIGHBOR true false 3 3
    (by decide) (by decide) (by decide) (by norm_num)

/-- Counterexample to claim C2 as stated.  For a 2 by 3 source and a 1 by 2
canvas (source aspect 2/3, canvas aspect 1/2, so the source is relatively
wider), the crop width computed by the code is `int(3 * 1/2) = 1`, whereas
`round(3 * 1/2) = 2` (Python rounds half to even): the crop width does not
equal the rounded value. -/
theorem resize_crop_width_not_rounded :
    ¬ ((resize_image_plan 2 3 (1, 2) ImageCropAlignment.CENTER
          ImageCropShape.RECTANGLE ImageFilter.NEAREST_NEIGHBOR true
          false).box.right -
        (resize_image_plan 2 3 (1, 2) ImageCropAlignment.CENTER
          ImageCropShape.RECTANGLE ImageFilter.NEAREST_NEIGHBOR true
          false).box.left =
        (pyRound ((3 : ℚ) * ((1 : ℚ) / (2 : ℚ))) : ℚ)) := by
  norm_num [resize_image_plan, effective_canvas, resize_box, truncQ, cropOffset,
    pyRound]

/-- Claim C2 as amended: in the `require_cropping` branch with the source
relatively wider than the (post-swap) canvas, the crop box spans the full
source height, its width is the TRUNCATION toward zero (Python `int`, not
`round`) of `source_height * canvas_aspect`, and the left offset is 0 for
start, `source_width - crop_width` for end and `(source_width - crop_width) / 2`
for centre alignment; the concrete 400 by 200 source, 100 by 100 canvas,
centre-aligned scenario yields the crop box (100, 0, 300, 200) and a 100 by
100 result. -/
theorem resize_crop_wide_branch :
    (∀ (sw sh cw ch : ℤ) (align : ImageCropAlignment) (shape : ImageCropShape)
        (filt : ImageFilter) (rmo : Bool) (ecw ech : ℤ) (dw : ℚ),
        0 < sw → 0 < sh → 0 < cw → 0 < ch →
        effective_canvas ((sw : ℚ) / (sh : ℚ)) cw ch rmo = (ecw, ech) →
        (ecw : ℚ) / (ech : ℚ) < (sw : ℚ) / (sh : ℚ) →
        dw = ((truncQ ((sh : ℚ) * ((ecw : ℚ) / (ech : ℚ)))) : ℚ) →
        ((resize_image_plan sw sh (cw, ch) align shape filt true rmo).box =
            CropBox.mk (cropOffset align (sw : ℚ) dw) 0
              (cropOffset align (sw : ℚ) dw + dw) (sh : ℚ) ∧
          cropOffset ImageCropAlignment.LEFT_OR_TOP (sw : ℚ) dw = 0 ∧
          cropOffset ImageCropAlignment.RIGHT_OR_BOTTOM (sw : ℚ) dw =
            (sw : ℚ) - dw ∧
          cropOffset ImageCropAlignment.CENTER (sw : ℚ) dw =
            ((sw : ℚ) - dw) / 2)) ∧
    resize_image_plan 400 200 (100, 100) ImageCropAlignment.CENTER
        ImageCropShape.RECTANGLE ImageFilter.NEAREST_NEIGHBOR true false =
      ResizePlan.mk 100 100 (CropBox.mk 100 0 300 200) ∧
    resize_image (PILImage.mk 400 200 "RGB") (100, 100)
        ImageCropAlignment.CENTER ImageCropShape.RECTANGLE
        ImageFilter.NEAREST_NEIGHBOR true false = PILImage.mk 100 100 "RGB" := by
  refine ⟨?_,
    by norm_num [resize_image_plan, effective_canvas, resize_box, truncQ, cropOffset],
    by norm_num [resize_image, resize_image_plan, effective_canvas]⟩
  intro sw sh cw ch align shape filt rmo ecw ech dw hsw hsh hcw hch hec hlt hdw
  subst hdw
  have hplan : resize_image_plan sw sh (cw, ch) align shape filt true rmo =
      ResizePlan.mk ecw ech
        (resize_box sw sh ((ecw : ℚ) / (ech : ℚ)) align true) := by
    unfold resize_image_plan
    rw [hec]
  have hbox : (resize_image_plan sw sh (cw, ch) align shape filt true rmo).box =
      resize_box sw sh ((ecw : ℚ) / (ech : ℚ)) align true := by rw [hplan]
  rw [hbox]
  refine ⟨?_, rfl, rfl, rfl⟩
  simp only [resize_box]
  rw [if_pos trivial, if_pos hlt]

/-- Counterexample to claim C3 as stated.  In the fit branch (no cropping
required) with a 100 by 100 source and a 200 by 100 canvas, the computed box
is (-50, 0, 150, 100): its left edge is negative and its right edge exceeds
the source width, so the claimed invariant fails. -/
theorem resize_fit_box_escapes_source :
    (resize_image_plan 100 100 (200, 100) ImageCropAlignment.CENTER
        ImageCropShape.RECTANGLE ImageFilter.NEAREST_NEIGHBOR false
        false).box = CropBox.mk (-50) 0 150 100 ∧
    ¬ CropBox.within
        ((resize_image_plan 100 100 (200, 100) ImageCropAlignment.CENTER
          ImageCropShape.RECTANGLE ImageFilter.NEAREST_NEIGHBOR false
          false).box) 100 100 := by
  constructor
  · norm_num [resize_image_plan, effective_canvas, resize_box, truncQ]
  · norm_num [CropBox.within, resize_image_plan, effective_canvas, resize_box,
      truncQ]

/-- Helper for claim C3: in the `require_cropping` branch of `resize_box`,
whenever the truncated crop dimension is at least one pixel, the computed
box lies within the source frame. -/
theorem resize_box_crop_within (sw sh : ℤ) (ca : ℚ)
    (align : ImageCropAlignment)
    (hsw : 0 < sw) (hsh : 0 < sh) (hca : 0 < ca)
    (h1 : ca < (sw : ℚ) / (sh : ℚ) → 1 ≤ (sh : ℚ) * ca)
    (h2 : (sw : ℚ) / (sh : ℚ) ≤ ca → 1 ≤ (sw : ℚ) / ca) :
    CropBox.within (resize_box sw sh ca align true) sw sh := by
  have hswq : (0 : ℚ) < (sw : ℚ) := by exact_mod_cast hsw
  have hshq : (0 : ℚ) < (sh : ℚ) := by exact_mod_cast hsh
  simp only [resize_box]
  rw [if_pos trivial]
  by_cases hlt : ca < (sw : ℚ) / (sh : ℚ)
  · rw [if_pos hlt]
    have htr : truncQ ((sh : ℚ) * ca) = ⌊(sh : ℚ) * ca⌋ := by
      unfold truncQ
      rw [if_pos (by positivity)]
    have hub : (sh : ℚ) * ca < (sw : ℚ) := by
      rw [mul_comm]
      exact (lt_div_iff₀ hshq).mp hlt
    have hlo : 1 ≤ ⌊(sh : ℚ) * ca⌋ := Int.le_floor.mpr (by exact_mod_cast h1 hlt)
    have hhi : ⌊(sh : ℚ) * ca⌋ < sw := Int.floor_lt.mpr (by exact_mod_cast hub)
    rw [htr]
    have hdlo : (1 : ℚ) ≤ ((⌊(sh : ℚ) * ca⌋ : ℤ) : ℚ) := by exact_mod_cast hlo
    have hdhi : ((⌊(sh : ℚ) * ca⌋ : ℤ) : ℚ) < (sw : ℚ) := by exact_mod_cast hhi
    cases align <;>
      simp only [cropOffset, CropBox.within] <;>
      exact ⟨by linarith, by linarith, by linarith, by linarith, by linarith,
        by linarith⟩
  · rw [if_neg hlt]
    have hle : (sw : ℚ) / (sh : ℚ) ≤ ca := not_lt.mp hlt
    have htr : truncQ ((sw : ℚ) / ca) = ⌊(sw : ℚ) / ca⌋ := by
      unfold truncQ
      rw [if_pos (by positivity)]
    have hub : (sw : ℚ) / ca ≤ (sh : ℚ) := by
      rw [div_le_iff₀ hca, mul_comm]
      exact (div_le_iff₀ hshq).mp hle
    have hlo : 1 ≤ ⌊(sw : ℚ) / ca⌋ := Int.le_floor.mpr (by exact_mod_cast h2 hle)
    have hhi : ⌊(sw : ℚ) / ca⌋ ≤ sh := by
      have := Int.floor_le_floor hub
      rwa [Int.floor_intCast] at this
    rw [htr]
    have hdlo : (1 : ℚ) ≤ ((⌊(sw : ℚ) / ca⌋ : ℤ) : ℚ) := by exact_mod_cast hlo
    have hdhi : ((⌊(sw : ℚ) / ca⌋ : ℤ) : ℚ) ≤ (sh : ℚ) := by exact_mod_cast hhi
    cases align <;>
      simp only [cropOffset, CropBox.within] <;>
      exact ⟨by linarith, by linarith, by linarith, by linarith, by linarith,
        by linarith⟩

/-- Claim C3 as amended: in the `require_cropping` branch, for every
alignment, the crop box satisfies `0 ≤ left < right ≤ source_width` and
`0 ≤ top < bottom ≤ source_height` — as rational coordinates, the centred
offsets being possibly half-integral — provided the truncated crop
dimension is at least one pixel (`canvas_height ≤ source_height *
canvas_width` in the wide-source case, `canvas_width ≤ source_width *
canvas_height` otherwise).  The fit branch does not satisfy the invariant
in general (see the counterexample). -/
theorem resize_crop_box_within_source (sw sh cw ch : ℤ)
    (align : ImageCropAlignment) (shape : ImageCropShape) (filt : ImageFilter)
    (hsw : 0 < sw) (hsh : 0 < sh) (hcw : 0 < cw) (hch : 0 < ch)
    (hwide : (cw : ℚ) / (ch : ℚ) < (sw : ℚ) / (sh : ℚ) → ch ≤ sh * cw)
    (hnarrow : (sw : ℚ) / (sh : ℚ) ≤ (cw : ℚ) / (ch : ℚ) → cw ≤ sw * ch) :
    CropBox.within
      ((resize_image_plan sw sh (cw, ch) align shape filt true false).box)
      sw sh := by
  have hcwq : (0 : ℚ) < (cw : ℚ) := by exact_mod_cast hcw
  have hchq : (0 : ℚ) < (ch : ℚ) := by exact_mod_cast hch
  have hec : effective_canvas ((sw : ℚ) / (sh : ℚ)) cw ch false = (cw, ch) := by
    unfold effective_canvas
    rw [if_neg]
    rintro ⟨hfalse, -⟩
    exact Bool.false_ne_true hfalse
  have hbox : (resize_image_plan sw sh (cw, ch) align shape filt true false).box =
      resize_box sw sh ((cw : ℚ) / (ch : ℚ)) align true := by
    unfold resize_image_plan
    rw [hec]
  rw [hbox]
  refine resize_box_crop_within sw sh _ align hsw hsh (div_pos hcwq hchq) ?_ ?_
  · intro h
    rw [← mul_div_assoc, one_le_div hchq]
    exact_mod_cast hwide h
  · intro h
    rw [div_div_eq_mul_div, one_le_div hcwq]
    exact_mod_cast hnarrow h

/-- Witness for the amended claim C3: a 4 by 2 source cropped for a square
canvas stays within the source frame. -/
theorem resize_crop_box_within_source_witness :
    CropBox.within
      ((resize_image_plan 4 2 (1, 1) ImageCropAlignment.CENTER
        ImageCropShape.RECTANGLE ImageFilter.NEAREST_NEIGHBOR true
        false).box) 4 2 :=
  resize_crop_box_within_source 4 2 1 1 ImageCropAlignment.CENTER
    ImageCropShape.RECTANGLE ImageFilter.NEAREST_NEIGHBOR
    (by decide) (by decide) (by decide) (by decide)
    (fun _ => by decide) (fun _ => by decide)

end ImageUtils
